import Mathlib

/-!
Verification of the selenium-helpers library: a shallow embedding of the
retry wrapper (`repeat_on_failure.py`), the session stores (`session.py`,
`_session.py`), the chromedriver service lifecycle (`_service.py`) and the
driver facade (`selenium_helpers.py`), together with theorems settling the
specification's claims about them.
-/

namespace SeleniumHelpers

/-- Outcome of a single invocation of a Python callable: either a returned
value or a raised exception, the exception represented by its kind `κ`. -/
inductive PyOutcome (α : Type) (κ : Type) where
  | ok (v : α)
  | exn (k : κ)
  deriving Repr, DecidableEq

/-- Observable result of running `RepeatOnFailure.try_to_execute`
(`src/repeat_on_failure.py`): the final outcome (`Except.error k` models a
propagated exception; `Except.ok none` models the `return None` reached when
the `for` loop body never runs), the number of invocations of the wrapped
function, and the number of `time.sleep` calls performed. -/
structure RunResult (α : Type) (κ : Type) where
  outcome : Except κ (Option α)
  calls : Nat
  sleeps : Nat
  deriving Repr

/-- Embedding of the loop body of `try_to_execute` in
`RepeatOnFailure.__call__` (`src/repeat_on_failure.py` lines 41-56).
`remaining` is the number of loop iterations left (`self.tries - try_index + 1`
at entry of an iteration); `tryIndex` is the Python `try_index`.  The wrapped
function is modelled as `op : Nat → PyOutcome α κ`, giving the outcome of its
`i`-th invocation; `handles k` models
`any(isinstance(raised_exception, t) for t in self.exception_types)`.
Each iteration calls the function; on success it returns the value; on a
raised exception it re-raises unknown kinds, re-raises on the last try
(`try_index == self.tries`, i.e. `remaining = 1`), and otherwise sleeps and
continues with the next iteration.  When the range is exhausted without
entering the body (`tries` below 1) the Python function returns `None`. -/
def runAux (handles : κ → Bool) (op : Nat → PyOutcome α κ) :
    Nat → Nat → RunResult α κ
  | 0, _ => ⟨Except.ok none, 0, 0⟩
  | remaining + 1, tryIndex =>
    match op tryIndex with
    | PyOutcome.ok v => ⟨Except.ok (some v), 1, 0⟩
    | PyOutcome.exn k =>
      if handles k then
        if remaining = 0 then ⟨Except.error k, 1, 0⟩
        else
          let r := runAux handles op remaining (tryIndex + 1)
          ⟨r.outcome, r.calls + 1, r.sleeps + 1⟩
      else ⟨Except.error k, 1, 0⟩

/-- Embedding of `RepeatOnFailure(tries, sleep_time, exception_types)(function)(...)`:
runs the `for try_index in range(1, self.tries + 1)` loop of
`try_to_execute`, starting at `try_index = 1` with `tries` iterations
available. -/
def tryToExecute (handles : κ → Bool) (op : Nat → PyOutcome α κ)
    (tries : Nat) : RunResult α κ :=
  runAux handles op tries 1

/-- The number of invocations never exceeds the number of iterations
available. -/
theorem runAux_calls_le (handles : κ → Bool) (op : Nat → PyOutcome α κ) :
    ∀ remaining tryIndex, (runAux handles op remaining tryIndex).calls ≤ remaining := by
  intro remaining
  induction remaining with
  | zero => intro tryIndex; simp [runAux]
  | succ n ih =>
    intro tryIndex
    unfold runAux
    cases op tryIndex with
    | ok v => simp
    | exn k =>
      by_cases hk : handles k
      · simp only [hk, if_true]
        by_cases hn : n = 0
        · simp [hn]
        · simp only [hn, if_false]
          exact Nat.succ_le_succ (ih (tryIndex + 1))
      · simp [hk]

/-- Invocations exceed sleeps by exactly one whenever at least one call
happened; in fact `calls = sleeps + 1` on every run that enters the loop. -/
theorem runAux_calls_eq_sleeps_succ (handles : κ → Bool)
    (op : Nat → PyOutcome α κ) :
    ∀ remaining tryIndex, 0 < remaining →
      (runAux handles op remaining tryIndex).calls =
        (runAux handles op remaining tryIndex).sleeps + 1 := by
  intro remaining
  induction remaining with
  | zero => intro tryIndex h; exact absurd h (Nat.lt_irrefl 0)
  | succ n ih =>
    intro tryIndex _
    unfold runAux
    cases op tryIndex with
    | ok v => simp
    | exn k =>
      by_cases hk : handles k
      · simp only [hk, if_true]
        by_cases hn : n = 0
        · simp [hn]
        · simp only [hn, if_false]
          have := ih (tryIndex + 1) (Nat.pos_of_ne_zero hn)
          simp [this]
      · simp [hk]

/-- If the first `m` invocations starting at `tryIndex` raise handled
exception kinds and the next invocation succeeds within the remaining
iteration budget, the loop returns that success after exactly `m + 1` calls
and `m` sleeps. -/
theorem runAux_succeeds_after_failures (handles : κ → Bool)
    (op : Nat → PyOutcome α κ) (v : α) :
    ∀ m remaining tryIndex, m < remaining →
      (∀ j, j < m → ∃ e, op (tryIndex + j) = PyOutcome.exn e ∧ handles e = true) →
      op (tryIndex + m) = PyOutcome.ok v →
      runAux handles op remaining tryIndex = ⟨Except.ok (some v), m + 1, m⟩ := by
  intro m
  induction m with
  | zero =>
    intro remaining tryIndex hlt _ hsucc
    obtain ⟨n, rfl⟩ := Nat.exists_eq_succ_of_ne_zero (Nat.pos_iff_ne_zero.mp hlt)
    unfold runAux
    simp only [Nat.add_zero] at hsucc
    rw [hsucc]
  | succ m ih =>
    intro remaining tryIndex hlt hfail hsucc
    obtain ⟨n, rfl⟩ := Nat.exists_eq_succ_of_ne_zero
      (Nat.pos_iff_ne_zero.mp (Nat.lt_of_le_of_lt (Nat.zero_le _) hlt))
    obtain ⟨e, he, hhe⟩ := hfail 0 (Nat.succ_pos m)
    have hmn : m < n := Nat.lt_of_succ_lt_succ hlt
    unfold runAux
    rw [Nat.add_zero] at he
    rw [he]
    simp only [hhe, if_true, Nat.pos_iff_ne_zero.mp
      (Nat.lt_of_le_of_lt (Nat.zero_le m) hmn), if_false]
    have hrec := ih n (tryIndex + 1) hmn
      (fun j hj => by
        have := hfail (j + 1) (Nat.succ_lt_succ hj)
        rwa [show tryIndex + (j + 1) = tryIndex + 1 + j by omega] at this)
      (by rwa [show tryIndex + 1 + m = tryIndex + (m + 1) by omega])
    rw [hrec]

/-- C4: for every retry configuration with `max_attempts = N ≥ 1` and
recoverable-kind predicate `handles`, an operation that raises recoverable
failures on its first `k < N` invocations and returns `v` on invocation
`k + 1` makes the wrapper return `v`, having invoked the operation exactly
`k + 1` times and slept exactly `k` times — no attempt follows the success. -/
theorem retry_succeeds_after_k_failures (handles : κ → Bool)
    (op : Nat → PyOutcome α κ) (N k : Nat) (v : α)
    (hN : 1 ≤ N) (hk : k < N)
    (hfail : ∀ i, 1 ≤ i → i ≤ k → ∃ e, op i = PyOutcome.exn e ∧ handles e = true)
    (hsucc : op (k + 1) = PyOutcome.ok v) :
    tryToExecute handles op N = ⟨Except.ok (some v), k + 1, k⟩ := by
  unfold tryToExecute
  exact runAux_succeeds_after_failures handles op v k N 1 hk
    (fun j hj => by
      have := hfail (j + 1) (Nat.le_add_left 1 j) (Nat.succ_le_of_lt hj)
      rwa [show (1 : Nat) + j = j + 1 by omega])
    (by rwa [show (1 : Nat) + k = k + 1 by omega])

/-- A concrete operation used to witness the retry theorems: raises
`WebDriverException` on its first invocation and returns `42` afterwards. -/
def sampleFlakyOp : Nat → PyOutcome Nat String :=
  fun i => if i = 1 then PyOutcome.exn "WebDriverException" else PyOutcome.ok 42

/-- Witness for C4 at `N = 3`, `k = 1`: one recoverable failure then a
success yields the success after two calls and one sleep. -/
theorem retry_succeeds_after_k_failures_witness :
    tryToExecute (fun e => e == "WebDriverException") sampleFlakyOp 3 =
      ⟨Except.ok (some 42), 2, 1⟩ :=
  retry_succeeds_after_k_failures (fun e => e == "WebDriverException")
    sampleFlakyOp 3 1 42 (by decide) (by decide)
    (fun i h1 h2 => by
      have hi : i = 1 := Nat.le_antisymm h2 h1
      exact ⟨"WebDriverException", by rw [hi]; rfl, by rfl⟩)
    rfl

/-- C7 counterexample: with `tries = 0` the Python loop
`for try_index in range(1, 0 + 1)` never runs, so the wrapped operation is
invoked zero times — not once as the claim states — and `None` is returned. -/
theorem retry_zero_tries_counterexample :
    (tryToExecute (fun _ : String => true) (fun _ => PyOutcome.ok (42 : Nat)) 0).calls = 0 ∧
      ¬ (tryToExecute (fun _ : String => true) (fun _ => PyOutcome.ok (42 : Nat)) 0).calls = 1 := by
  exact ⟨rfl, by decide⟩

/-- C7 amended: with `max_attempts = 1` the operation runs exactly once and
no sleep occurs (in particular none after the final attempt of this
raise-on-exhaustion wrapper); with `max_attempts = 0` the operation is never
invoked, no sleep occurs, and the wrapper returns the `None` sentinel. -/
theorem retry_low_budget (handles : κ → Bool) (op : Nat → PyOutcome α κ) :
    (tryToExecute handles op 1).calls = 1 ∧
      (tryToExecute handles op 1).sleeps = 0 ∧
      tryToExecute handles op 0 = ⟨Except.ok none, 0, 0⟩ := by
  refine ⟨?_, ?_, rfl⟩ <;>
  · unfold tryToExecute runAux
    cases op 1 with
    | ok v => rfl
    | exn k =>
      by_cases hk : handles k
      · simp [hk]
      · simp [hk]

/-- The whitespace characters removed by Python's `str.strip()` (the ASCII
ones; session ids and pids are ASCII). -/
def pyIsSpace (c : Char) : Bool :=
  c = ' ' || c = '\t' || c = '\n' || c = '\r' || c = '\x0b' || c = '\x0c'

/-- Python `file.readline()` on a file whose whole content is the given
character list: the first line, including its trailing newline when one is
present. -/
def takeLine : List Char → List Char
  | [] => []
  | c :: cs => if c = '\n' then [c] else c :: takeLine cs

/-- Python `str.strip()`: drop leading and trailing whitespace. -/
def pyStripList (l : List Char) : List Char :=
  ((l.dropWhile pyIsSpace).reverse.dropWhile pyIsSpace).reverse

/-- Embedding of `session.py _read_session_id` (lines 27-34): under the file lock, return
`session_id_file.readline().strip()`; when the file is absent
(`FileNotFoundError` suppressed) fall through and return the empty string.
The file state is `none` when absent, `some content` otherwise. -/
def readSessionId (file : Option String) : String :=
  match file with
  | none => ""
  | some content => String.mk (pyStripList (takeLine content.toList))

/-- Embedding of `session.py _save_session_id` (lines 36-47): under the file lock, open
the file in mode "w" (truncating) and write `session_id`, unconditionally
replacing whatever was recorded.  (The non-`str` branch only coerces the
argument to a string; the embedding takes the already-string value.)  Note
that despite its docstring this function has no conflict check and cannot
raise `SessionAlreadyExists`. -/
def saveSessionIdFile (sessionId : String) (_file : Option String) : Option String :=
  some sessionId

/-- Embedding of `session.py _clear_session_id` (lines 49-54): remove the file, a no-op
when already absent. -/
def clearSessionIdFile (_file : Option String) : Option String :=
  none

/-- Failure kind raised by the environment-backed store of `_session.py`. -/
inductive SessionStoreError where
  | sessionAlreadyExists
  deriving Repr, DecidableEq

/-- Embedding of `_session.py _read_session_id` (lines 25-31):
`os.environ.get(_SESSION_ID_ENV_KEY, None)`. -/
def envReadSessionId (env : Option String) : Option String :=
  env

/-- Embedding of `_session.py _save_session_id` (lines 33-42): if the key is present in
the environment and equal to `session_id`, log and return (state unchanged);
if present and different, raise `SessionAlreadyExists`; otherwise record
`session_id`. -/
def envSaveSessionId (sessionId : String) (env : Option String) :
    Except SessionStoreError (Option String) :=
  match env with
  | some existing =>
    if existing = sessionId then Except.ok (some existing)
    else Except.error SessionStoreError.sessionAlreadyExists
  | none => Except.ok (some sessionId)

/-- Embedding of `_session.py _clear_session_id` (lines 44-48). -/
def envClearSessionId (_env : Option String) : Option String :=
  none

/-- C1: evaluation of the file-backed store (`session.py`, the module the
driver facade imports) at the failing input: with `"abc"` recorded, saving
`"xyz"` silently overwrites the record with `"xyz"` and cannot signal
`SessionAlreadyExists` — contradicting the function's own docstring and the
claim.  (The environment-backed variant `_session.py` does implement the
claimed rule; see `envSaveSessionId_conflict_rule`.) -/
theorem saveSessionIdFile_silently_overwrites :
    saveSessionIdFile "xyz" (some "abc") = some "xyz" ∧
      readSessionId (saveSessionIdFile "xyz" (some "abc")) = "xyz" := by
  exact ⟨rfl, by decide⟩

/-- The environment-backed store (`_session.py`) does satisfy the claimed
conflict rule: saving the recorded id again is a no-op, and saving a
different id raises `SessionAlreadyExists`, leaving the record unchanged. -/
theorem envSaveSessionId_conflict_rule (s t : String) :
    envSaveSessionId s (some s) = Except.ok (some s) ∧
      (s ≠ t → envSaveSessionId t (some s) =
        Except.error SessionStoreError.sessionAlreadyExists) := by
  constructor
  · simp [envSaveSessionId]
  · intro hne
    simp [envSaveSessionId, hne]

/-- C8 counterexample: the session id `"a\nb"` does not round-trip through
the file-backed store — `readline().strip()` returns only the stripped
first line `"a"`. -/
theorem session_roundtrip_counterexample :
    ¬ (readSessionId (saveSessionIdFile "a\nb" none) = "a\nb") := by
  decide

/-- If no newline occurs in the content, `readline()` reads all of it. -/
theorem takeLine_eq_self (l : List Char) (h : ∀ c ∈ l, c ≠ '\n') :
    takeLine l = l := by
  induction l with
  | nil => rfl
  | cons c cs ih =>
    unfold takeLine
    have hc : ¬ (c = '\n') := h c (List.mem_cons_self c cs)
    simp only [hc, if_false]
    rw [ih (fun d hd => h d (List.mem_cons_of_mem c hd))]

/-- C8 amended: for every session id `s` that contains no newline and is
invariant under `strip()` (no leading or trailing whitespace), a read issued
after `save(s)` completes observes exactly `s`.  (For other strings the
read observes the stripped first line instead — see the counterexample.) -/
theorem session_read_after_save (s : String) (file : Option String)
    (hnl : ∀ c ∈ s.toList, c ≠ '\n')
    (hstrip : pyStripList s.toList = s.toList) :
    readSessionId (saveSessionIdFile s file) = s := by
  show String.mk (pyStripList (takeLine s.toList)) = s
  rw [takeLine_eq_self s.toList hnl, hstrip]
  cases s
  rfl

/-- Witness for C8 amended at `s = "abc123"`. -/
theorem session_read_after_save_witness :
    (∀ c ∈ "abc123".toList, c ≠ '\n') ∧
      pyStripList "abc123".toList = "abc123".toList ∧
      readSessionId (saveSessionIdFile "abc123" none) = "abc123" :=
  ⟨by decide, by decide,
    session_read_after_save "abc123" none (by decide) (by decide)⟩

/-- Digit tail of a Python integer literal accepted by `int(str)`: digits in
which a single underscore may stand between two digits.  `acc` is the value
of the digits consumed so far. -/
def pyDigitsAux : Nat → List Char → Option Nat
  | acc, [] => some acc
  | acc, '_' :: rest =>
    match rest with
    | [] => none
    | c :: rest2 =>
      if c.isDigit then pyDigitsAux (acc * 10 + (c.toNat - 48)) rest2 else none
  | acc, c :: rest =>
    if c.isDigit then pyDigitsAux (acc * 10 + (c.toNat - 48)) rest else none

/-- Nonempty digit run (underscores allowed between digits): the body of a
Python integer literal after any sign. -/
def pyDigits : List Char → Option Nat
  | [] => none
  | c :: rest => if c.isDigit then pyDigitsAux (c.toNat - 48) rest else none

/-- Python `int(s)` on a decimal string: surrounding whitespace is ignored,
an optional single `+`/`-` sign precedes a nonempty digit run; any other
shape raises `ValueError`, modelled as `none`. -/
def pyIntOfString (s : String) : Option Int :=
  let l := s.toList.dropWhile pyIsSpace
  let l := (l.reverse.dropWhile pyIsSpace).reverse
  match l with
  | '+' :: rest => (pyDigits rest).map (fun n => (n : Int))
  | '-' :: rest => (pyDigits rest).map (fun n => -(n : Int))
  | rest => (pyDigits rest).map (fun n => (n : Int))

/-- Embedding of `_service.py _read_pid` (lines 79-89), on an existing pid file with the
given content: `pid = pid_file.readline().strip()`, then
`with suppress(ValueError): return int(pid)`, falling through to
`return None` when the parse raises. -/
def readPid (content : String) : Option Int :=
  pyIntOfString (String.mk (pyStripList (takeLine content.toList)))

/-- State touched by the chromedriver service lifecycle
(`src/_service.py`): the pid record file (`chromedriver-pid.txt`, `none`
when absent), the pids of the external processes spawned with
`subprocess.Popen`, in launch order, and the pids that were sent
`SIGTERM`. -/
structure ServiceState where
  pidFile : Option String
  launched : List Nat
  signalsSent : List Int
  deriving Repr, DecidableEq

/-- Embedding of `_service.py _shutdown_chromedriver` (lines 91-102): under the pid-file
lock, if the pid file exists, read the pid; if it is truthy (a nonzero
integer, not `None`) send `SIGTERM` to it (`OSError` suppressed); then
remove the pid file. -/
def shutdownChromedriver (st : ServiceState) : ServiceState :=
  match st.pidFile with
  | none => st
  | some content =>
    let pid := readPid content
    let signals :=
      match pid with
      | some p => if p ≠ 0 then st.signalsSent ++ [p] else st.signalsSent
      | none => st.signalsSent
    { st with pidFile := none, signalsSent := signals }

/-- Embedding of `_service.py _start_chromedriver` (lines 104-125): build the command
line from the configured executable, port, log path and log level, then —
under the pid-file lock — `subprocess.Popen` the command (always spawning a
new external process, `newPid`), and unless `process.poll()` reports that
the fresh process already exited with a truthy status (`pollExitCode`),
write its pid to the pid file.  Returns the new process handle (its pid).
The command-line assembly reads only configuration and does not affect this
state, so it is elided here; note the source's own
`TODO:: Check if process with the saved PID exists.` — no such check is
performed. -/
def startChromedriver (st : ServiceState) (newPid : Nat)
    (pollExitCode : Option Int) : ServiceState × Nat :=
  let st1 : ServiceState := { st with launched := st.launched ++ [newPid] }
  let exited : Bool :=
    match pollExitCode with
    | some code => code != 0
    | none => false
  if exited then (st1, newPid)
  else ({ st1 with pidFile := some (toString newPid) }, newPid)

/-- C3 failing run: from a clean state, two successive `_start_chromedriver()`
calls (the OS assigning pids 100 then 101, both processes staying alive so
`poll()` returns `None`) spawn two external processes, overwrite the pid
record with the second pid, and the second call returns the new process
rather than the existing one — the guard the claim describes is the
source's unimplemented TODO. -/
theorem startChromedriver_twice_two_processes :
    (startChromedriver (startChromedriver ⟨none, [], []⟩ 100 none).1 101 none).1.launched
        = [100, 101] ∧
      (startChromedriver (startChromedriver ⟨none, [], []⟩ 100 none).1 101 none).1.pidFile
        = some "101" ∧
      (startChromedriver (startChromedriver ⟨none, [], []⟩ 100 none).1 101 none).2 = 101 ∧
      ¬ ((startChromedriver (startChromedriver ⟨none, [], []⟩ 100 none).1 101 none).1.launched.length = 1) := by
  decide

/-- C10: when the pid file exists but its first line does not parse as a
Python integer, `_read_pid` returns `None` (instead of raising), and
`_shutdown_chromedriver` sends no termination signal yet still removes the
pid file, leaving the record absent. -/
theorem shutdown_unparsable_pid (st : ServiceState) (content : String)
    (hfile : st.pidFile = some content)
    (hparse : pyIntOfString (String.mk (pyStripList (takeLine content.toList))) = none) :
    readPid content = none ∧
      (shutdownChromedriver st).pidFile = none ∧
      (shutdownChromedriver st).signalsSent = st.signalsSent := by
  have hpid : readPid content = none := hparse
  refine ⟨hpid, ?_, ?_⟩ <;> simp [shutdownChromedriver, hfile, hpid]

/-- Witness for C10 at pid-file content `"abc"`. -/
theorem shutdown_unparsable_pid_witness :
    readPid "abc" = none ∧
      (shutdownChromedriver ⟨some "abc", [100], []⟩).pidFile = none ∧
      (shutdownChromedriver ⟨some "abc", [100], []⟩).signalsSent = [] :=
  shutdown_unparsable_pid ⟨some "abc", [100], []⟩ "abc" rfl (by decide)

/-- Navigation-visible state of the remote browser used by `Driver.open_url`:
the current location (`self.current_url`) and the urls passed to
`self.get`, in order. -/
structure NavState where
  current : String
  visits : List String
  deriving Repr, DecidableEq

/-- The inner `go_to` of `Driver.open_url` (`src/selenium_helpers.py` lines
224-232): `self.get(new_url)` (followed by a page-change sleep) when
`refresh` is set or `new_url` differs from the current location; otherwise a
no-op. -/
def goTo (refresh : Bool) (st : NavState) (newUrl : String) : NavState :=
  if refresh || newUrl != st.current then
    { current := newUrl, visits := st.visits ++ [newUrl] }
  else st

/-- Embedding of `Driver.open_url` (`src/selenium_helpers.py` lines 212-238), a
`@contextmanager` generator: capture `original_url`, navigate to `url`,
`yield` to the scoped body, and after a normal resume navigate back when
`go_back` is set.  The body is modelled as a function from the state at the
`yield` to its outcome and the state it leaves behind.  The source wraps
nothing in `try/finally`: an exception raised by the body propagates through
the `yield` and the generator never reaches the `if go_back` step. -/
def openUrl (url : String) (goBack refresh : Bool)
    (body : NavState → Except κ α × NavState) (st : NavState) :
    Except κ α × NavState :=
  let originalUrl := st.current
  let st1 := goTo refresh st url
  match body st1 with
  | (Except.ok a, st2) =>
    (Except.ok a, if goBack then goTo refresh st2 originalUrl else st2)
  | (Except.error k, st2) => (Except.error k, st2)

/-- A scoped body that raises (used for the C2 counterexample): it performs
no navigation and raises an exception. -/
def raisingBody : NavState → Except String Unit × NavState :=
  fun st => (Except.error "boom", st)

/-- C2 counterexample: starting at `"http://a"` and visiting `"http://b"`
with `go_back` enabled, a body that raises leaves the location at
`"http://b"` — the restoration to `"http://a"` does not run before the
exception propagates. -/
theorem openUrl_counterexample :
    (openUrl "http://b" true false raisingBody ⟨"http://a", []⟩).2.current = "http://b" ∧
      ¬ ((openUrl "http://b" true false raisingBody ⟨"http://a", []⟩).2.current = "http://a") ∧
      (openUrl "http://b" true false raisingBody ⟨"http://a", []⟩).1 = Except.error "boom" := by
  exact ⟨by decide, by decide, rfl⟩

/-- Navigating back to the captured location always lands on it. -/
theorem goTo_current (refresh : Bool) (st : NavState) (url : String) :
    (goTo refresh st url).current = url ∨
      ((goTo refresh st url) = st ∧ st.current = url) := by
  unfold goTo
  by_cases h : (refresh || url != st.current) = true
  · simp [h]
  · right
    simp only [h, if_false]
    simp only [Bool.or_eq_true, bne_iff_ne, not_or] at h
    exact ⟨rfl, (not_not.mp h.2).symm⟩

/-- C2 amended: `open_url` with `go_back` captures the original location L0
and, when the scoped body completes without raising, restores the current
location to L0; when the body raises, the exception propagates to the caller
unsuppressed, but the go-back step does not run — the location is left
wherever the body left it, not restored to L0. -/
theorem openUrl_scoped_visit (url : String) (refresh : Bool)
    (body : NavState → Except κ α × NavState) (st : NavState) :
    (∀ a st2, body (goTo refresh st url) = (Except.ok a, st2) →
      openUrl url true refresh body st = (Except.ok a, goTo refresh st2 st.current) ∧
        (goTo refresh st2 st.current).current = st.current) ∧
    (∀ k st2, body (goTo refresh st url) = (Except.error k, st2) →
      openUrl url true refresh body st = (Except.error k, st2)) := by
  constructor
  · intro a st2 hbody
    constructor
    · simp [openUrl, hbody]
    · rcases goTo_current refresh st2 st.current with h | h
      · exact h
      · rw [h.1, h.2]
  · intro k st2 hbody
    simp [openUrl, hbody]

/-- A scoped body that succeeds without navigating (used to witness C2). -/
def quietBody : NavState → Except String Nat × NavState :=
  fun st => (Except.ok 7, st)

/-- Witness for C2 amended: a successful scoped visit from `"http://a"` to
`"http://b"` returns the body's value and restores the location. -/
theorem openUrl_scoped_visit_witness :
    (openUrl "http://b" true false quietBody ⟨"http://a", []⟩).1 = Except.ok 7 ∧
      (openUrl "http://b" true false quietBody ⟨"http://a", []⟩).2.current = "http://a" := by
  have h := (openUrl_scoped_visit "http://b" false quietBody ⟨"http://a", []⟩).1 7
    (goTo false ⟨"http://a", []⟩ "http://b") rfl
  exact ⟨by rw [h.1], by rw [h.1]; exact h.2⟩

/-- The wire name of the create-session command
(`selenium.webdriver.remote.command.Command.NEW_SESSION`). -/
def newSessionCommand : String := "newSession"

/-- Python truthiness of `self._saved_session_id`, which is `None` or a
string: `None` and the empty string are falsy. -/
def truthyOptStr : Option String → Bool
  | none => false
  | some s => s != ""

/-- Result of one `execute` call: either the canned reply
`{"success": 0, "value": None, "sessionId": <saved id>}` produced without
any remote call, or delegation of the unchanged command and params to
`super().execute`. -/
inductive ExecuteResult (P : Type) where
  | intercepted (success : Nat) (value : Option Unit) (sessionId : String)
  | delegated (command : String) (params : Option P)
  deriving Repr, DecidableEq

/-- Embedding of `Driver.execute` (`src/selenium_helpers.py` lines 103-108), identical in
`_WebDriver.execute` (`src/web_driver.py` lines 57-62): intercept
`NEW_SESSION` when a truthy session id was saved at construction, returning
the canned reply; delegate everything else to the parent implementation. -/
def driverExecute (savedSessionId : Option String) (command : String)
    (params : Option P) : ExecuteResult P :=
  if command == newSessionCommand && truthyOptStr savedSessionId then
    ExecuteResult.intercepted 0 none (savedSessionId.getD "")
  else ExecuteResult.delegated command params

/-- C9: with a non-empty saved session id, `execute` answers `NEW_SESSION`
with `success 0`, `value None` and the saved id, performing no remote call;
every other command — and `NEW_SESSION` without a truthy saved id — is
delegated unchanged to the parent implementation, so connecting with a
session hint never creates a second remote session. -/
theorem driverExecute_session_reuse (saved : Option String) (command : String)
    (params : Option P) :
    (∀ s, saved = some s → s ≠ "" → command = newSessionCommand →
      driverExecute saved command params = ExecuteResult.intercepted 0 none s) ∧
    (¬ (command = newSessionCommand ∧ truthyOptStr saved = true) →
      driverExecute saved command params = ExecuteResult.delegated command params) := by
  constructor
  · intro s hs hne hcmd
    subst hs hcmd
    simp [driverExecute, truthyOptStr, hne]
  · intro h
    unfold driverExecute
    rcases Decidable.em (command = newSessionCommand) with hc | hc
    · have ht : truthyOptStr saved = false := by
        cases hsv : truthyOptStr saved with
        | false => rfl
        | true => exact absurd ⟨hc, hsv⟩ h
      simp [ht]
    · have : (command == newSessionCommand) = false := by
        simp [hc]
      simp [this]

/-- Witness for C9: saved id `"abc"`, `NEW_SESSION` is intercepted with the
saved id, and a `"get"` command is delegated unchanged. -/
theorem driverExecute_session_reuse_witness :
    driverExecute (some "abc") newSessionCommand (none : Option Unit) =
        ExecuteResult.intercepted 0 none "abc" ∧
      driverExecute (some "abc") "get" (none : Option Unit) =
        ExecuteResult.delegated "get" none :=
  ⟨(driverExecute_session_reuse (some "abc") newSessionCommand none).1 "abc" rfl
      (by decide) rfl,
    (driverExecute_session_reuse (some "abc") "get" none).2
      (fun h => by exact absurd h.1 (by decide))⟩

/-- When a run returns a success value, the value was produced by the last
invocation performed, i.e. by `op` at index `tryIndex + calls - 1`. -/
theorem runAux_success_last_call (handles : κ → Bool) (op : Nat → PyOutcome α κ) :
    ∀ remaining tryIndex v,
      (runAux handles op remaining tryIndex).outcome = Except.ok (some v) →
      op (tryIndex + (runAux handles op remaining tryIndex).calls - 1) =
        PyOutcome.ok v := by
  intro remaining
  induction remaining with
  | zero =>
    intro tryIndex v h
    exact absurd h (by simp [runAux])
  | succ n ih =>
    intro tryIndex v
    unfold runAux
    cases hop : op tryIndex with
    | ok w =>
      intro h
      have h' : (Except.ok (some w) : Except κ (Option α)) = Except.ok (some v) := h
      have hwv : w = v := Option.some.inj (Except.ok.inj h')
      show op (tryIndex + 1 - 1) = PyOutcome.ok v
      rw [show tryIndex + 1 - 1 = tryIndex by omega, hop, hwv]
    | exn k =>
      intro h
      by_cases hk : handles k
      · by_cases hn : n = 0
        · simp [hk, hn] at h
        · simp only [hk, if_true, hn, if_false] at h ⊢
          have h3 := ih (tryIndex + 1) v h
          rwa [show tryIndex + ((runAux handles op n (tryIndex + 1)).calls + 1) - 1 =
            tryIndex + 1 + (runAux handles op n (tryIndex + 1)).calls - 1 by omega]
      · simp [hk] at h

/-- Modelled from the spec: `ReTry`, imported by `selenium_helpers.py` (and
the tests) as `from repeat_on_failure import ReTry`, is absent from the
sources — only its callers are present.  Per spec 4.1 and its in-repo
sibling `RepeatOnFailure`, `ReTry(kind, tries=N, sleep_time=d)` wraps an
operation and retries failures of the single given recoverable kind up to
`N` attempts with a sleep between attempts, re-raising other kinds
immediately and re-raising the last failure once attempts are exhausted. -/
def reTry [BEq κ] (kind : κ) (tries : Nat) (op : Nat → PyOutcome α κ) :
    RunResult α κ :=
  tryToExecute (fun e => e == kind) op tries

/-- One attempt of the inner `implementation` of `Driver.send_keys_by_xpath`
(`src/selenium_helpers.py` lines 178-193): find the element, `clear()` it,
`send_keys(keys)`, then read back the element's `value` attribute and raise
`WebDriverException` when it differs from `keys`; return the element
(modelled `Unit`) when it matches.  `attemptRemote i` abstracts the remote
interactions of the `i`-th attempt: `none` when one of them raises
`WebDriverException` itself, `some v` when they complete and the read-back
value is `v`. -/
def sendKeysAttempt (keys : String) (attemptRemote : Nat → Option String)
    (attempt : Nat) : PyOutcome Unit String :=
  match attemptRemote attempt with
  | none => PyOutcome.exn "WebDriverException"
  | some v =>
    if v == keys then PyOutcome.ok ()
    else PyOutcome.exn "WebDriverException"

/-- Embedding of `Driver.send_keys_by_xpath` (`src/selenium_helpers.py` lines 172-197):
the single-attempt implementation wrapped with
`settings.get_default_re_try() = ReTry(WebDriverException, tries=try_times,
sleep_time=sleep_time)` and invoked once.  (The non-`str` branch only
coerces `keys` to a string.) -/
def sendKeysByXpath (tryTimes : Nat) (keys : String)
    (attemptRemote : Nat → Option String) : RunResult Unit String :=
  reTry "WebDriverException" tryTimes (sendKeysAttempt keys attemptRemote)

/-- C6: the write primitive invokes its single-attempt implementation at
most the configured number of tries, and it reports success only when the
read-back of the successful (last) attempt equals the written keys — a
mismatching read-back raises the remote-operation-failure kind, which the
surrounding retry absorbs. -/
theorem sendKeys_verified_roundtrip (tryTimes : Nat) (keys : String)
    (attemptRemote : Nat → Option String) :
    (sendKeysByXpath tryTimes keys attemptRemote).calls ≤ tryTimes ∧
      (∀ v, (sendKeysByXpath tryTimes keys attemptRemote).outcome =
          Except.ok (some v) →
        attemptRemote (sendKeysByXpath tryTimes keys attemptRemote).calls =
          some keys) := by
  constructor
  · exact runAux_calls_le _ _ tryTimes 1
  · intro v h
    have hlast0 := runAux_success_last_call
      (fun e => e == "WebDriverException") (sendKeysAttempt keys attemptRemote)
      tryTimes 1 v h
    rw [show 1 + (runAux (fun e => e == "WebDriverException")
        (sendKeysAttempt keys attemptRemote) tryTimes 1).calls - 1 =
        (runAux (fun e => e == "WebDriverException")
        (sendKeysAttempt keys attemptRemote) tryTimes 1).calls by omega] at hlast0
    have hlast : sendKeysAttempt keys attemptRemote
        ((sendKeysByXpath tryTimes keys attemptRemote).calls) = PyOutcome.ok v := hlast0
    unfold sendKeysAttempt at hlast
    cases hr : attemptRemote (sendKeysByXpath tryTimes keys attemptRemote).calls with
    | none =>
      rw [hr] at hlast
      exact PyOutcome.noConfusion
        (show PyOutcome.exn "WebDriverException" = PyOutcome.ok v from hlast)
    | some w =>
      rw [hr] at hlast
      by_cases hw : w = keys
      · rw [hw]
      · have hbeq : (w == keys) = false := by
          simp [hw]
        have hif : (if (w == keys) = true then PyOutcome.ok ()
            else PyOutcome.exn "WebDriverException") = PyOutcome.ok v := hlast
        rw [hbeq] at hif
        exact PyOutcome.noConfusion
          (show PyOutcome.exn "WebDriverException" = PyOutcome.ok v from hif)

/-- Read-back behavior used to witness C6: the first write silently fails
to stick (the value reads back empty), the second succeeds. -/
def sampleReadBack : Nat → Option String :=
  fun i => if i = 1 then some "" else some "42"

/-- Witness for C6 at `try_times = 10`, writing `"42"`: at most ten calls,
and the read-back at the successful call equals `"42"`. -/
theorem sendKeys_verified_roundtrip_witness :
    (sendKeysByXpath 10 "42" sampleReadBack).calls ≤ 10 ∧
      sampleReadBack (sendKeysByXpath 10 "42" sampleReadBack).calls = some "42" :=
  ⟨(sendKeys_verified_roundtrip 10 "42" sampleReadBack).1,
    (sendKeys_verified_roundtrip 10 "42" sampleReadBack).2 () rfl⟩

/-- Events observable during one `Driver.create()` run, in order: the
service-start call, the clearing of the session record, and each save of a
session id. -/
inductive CreateEvent where
  | startService
  | clearSession
  | saveSession (sessionId : String)
  deriving Repr, DecidableEq

/-- Persistent state touched by `Driver.create`
(`src/selenium_helpers.py` lines 62-82): the session-id file of
`session.py`, the chromedriver service state of `_service.py`, and the
trace of events performed so far. -/
structure FacadeWorld where
  sessionFile : Option String
  service : ServiceState
  trace : List CreateEvent
  deriving Repr, DecidableEq

/-- Embedding of `Driver.__init__` (`src/selenium_helpers.py` lines 84-101) with the
remote driver client abstracted: `super().__init__` issues the NEW_SESSION
command, which the overridden `execute` answers from `sessionHint` when the
hint is a truthy (non-empty) string; otherwise the command reaches the
service, which grants the fresh session id `freshId`.  The constructor then
probes `self.current_url`; `alive sid` tells whether session `sid` answers
the probe, and a failed probe raises `WebDriverException` (`Except.error`).
Returns the connected driver's session id. -/
def driverInit (alive : String → Bool) (freshId : String)
    (sessionHint : Option String) : Except Unit String :=
  let sid :=
    match sessionHint with
    | some s => if s != "" then s else freshId
    | none => freshId
  if alive sid then Except.ok sid else Except.error ()

/-- Embedding of `Driver.create` (`src/selenium_helpers.py` lines 62-82): start the
chromedriver service (`service._start_chromedriver()`, the OS assigning
`newPid` to the spawned process), read the recorded session id (empty
string when absent), and — inside
`with suppress(WebDriverException)` — connect passing that id as the reuse
hint and persist the connected session id.  When the reuse attempt raises
`WebDriverException`, fall through: clear the session record, connect with
no hint (a brand-new session), persist its id, and return the handle. -/
def driverCreate (alive : String → Bool) (freshId : String) (newPid : Nat)
    (w : FacadeWorld) : Except Unit (String × FacadeWorld) :=
  let svc := (startChromedriver w.service newPid none).1
  let w1 : FacadeWorld :=
    { w with service := svc, trace := w.trace ++ [CreateEvent.startService] }
  let hint := readSessionId w1.sessionFile
  match driverInit alive freshId (some hint) with
  | Except.ok sid =>
    Except.ok (sid,
      { w1 with sessionFile := saveSessionIdFile sid w1.sessionFile,
                trace := w1.trace ++ [CreateEvent.saveSession sid] })
  | Except.error _ =>
    let w2 : FacadeWorld :=
      { w1 with sessionFile := clearSessionIdFile w1.sessionFile,
                trace := w1.trace ++ [CreateEvent.clearSession] }
    match driverInit alive freshId none with
    | Except.ok sid =>
      Except.ok (sid,
        { w2 with sessionFile := saveSessionIdFile sid w2.sessionFile,
                  trace := w2.trace ++ [CreateEvent.saveSession sid] })
    | Except.error e => Except.error e

/-- C5: when a session id `s` is recorded but the corresponding remote
session is no longer alive (the reuse connection's liveness probe raises
the driver-client failure kind), `Driver.create` clears the stale record,
has the service started, opens a brand-new connection yielding the fresh
session id, persists that id, and returns the connected handle — in that
order, as the trace records. -/
theorem driverCreate_recovers_stale_session (alive : String → Bool)
    (freshId : String) (newPid : Nat) (w : FacadeWorld) (content s : String)
    (hfile : w.sessionFile = some content)
    (hread : readSessionId (some content) = s)
    (hne : s ≠ "")
    (hdead : alive s = false)
    (hfresh : alive freshId = true) :
    driverCreate alive freshId newPid w =
      Except.ok (freshId,
        { sessionFile := some freshId,
          service := (startChromedriver w.service newPid none).1,
          trace := w.trace ++ [CreateEvent.startService, CreateEvent.clearSession,
                               CreateEvent.saveSession freshId] }) := by
  have hbne : (s != "") = true := by
    simp [hne]
  simp only [driverCreate, hfile, hread, driverInit, hbne, if_true, hdead,
    hfresh, Bool.false_eq_true, if_false, saveSessionIdFile, clearSessionIdFile]
  simp [List.append_assoc]

/-- Witness for C5: recorded stale id `"stale"`, fresh id `"new1"`,
service pid 100, starting from a clean trace. -/
theorem driverCreate_recovers_stale_session_witness :
    driverCreate (fun x => x == "new1") "new1" 100
        ⟨some "stale", ⟨none, [], []⟩, []⟩ =
      Except.ok ("new1",
        { sessionFile := some "new1",
          service := ⟨some "100", [100], []⟩,
          trace := [CreateEvent.startService, CreateEvent.clearSession,
                    CreateEvent.saveSession "new1"] }) :=
  driverCreate_recovers_stale_session (fun x => x == "new1") "new1" 100
    ⟨some "stale", ⟨none, [], []⟩, []⟩ "stale" "stale"
    rfl (by decide) (by decide) (by decide) (by decide)

end SeleniumHelpers
